import Mathlib

/-!
Verification development for the WhatsBot repository (src/bot.py).

The Python source is shallowly embedded: pure string manipulation becomes
Lean string functions with Python semantics (`str.strip`, `str.split`),
the HTML nodes that `message_block` inspects become a structure recording
exactly the attributes the code reads, and the Selenium driver becomes an
environment of fallible queries (`Except`-valued), with `try/except`
modelled by pattern matching on the result.
-/

namespace WhatsBot

/-! ## Python string primitives -/

/-- Python `s.strip(chars)`: remove leading and trailing characters that are
members of `chars`. -/
def pyStrip (chars : List Char) (s : String) : String :=
  String.mk (((s.data.dropWhile (· ∈ chars)).reverse.dropWhile (· ∈ chars)).reverse)

/-- Python `s.strip()` (no argument): remove leading and trailing whitespace. -/
def pyStripWs (s : String) : String :=
  String.mk (((s.data.dropWhile Char.isWhitespace).reverse.dropWhile Char.isWhitespace).reverse)

/-- Worker for `pySplit`: scans the character list left to right, cutting at
every occurrence of the (non-empty) separator.  The fuel argument is
initialised to the list length, which bounds the number of steps; it exists
only to make the recursion structural. -/
def pySplitAux (sep : List Char) : Nat → List Char → List Char → List (List Char)
  | _, [], acc => [acc.reverse]
  | 0, s, acc => [acc.reverse ++ s]
  | fuel + 1, c :: rest, acc =>
    if sep.isPrefixOf (c :: rest) then
      acc.reverse :: pySplitAux sep fuel ((c :: rest).drop sep.length) []
    else
      pySplitAux sep fuel rest (c :: acc)

/-- Python `s.split(sep)` for a non-empty separator `sep`: split on every
occurrence of `sep`, keeping empty parts. -/
def pySplit (sep : String) (s : String) : List String :=
  (pySplitAux sep.data s.data.length s.data []).map String.mk

/-! ## Metadata parse (src/bot.py lines 198-210)

The body of the `try:` block in `message_block`:

    timestamp_part, sender = pre_text.strip('[]').split(']')
    time, date = timestamp_part.split(', ')

Each tuple unpacking raises `ValueError` unless the split yields exactly two
parts; the `except (ValueError, IndexError)` clause turns any such failure
into "leave the fields untouched", which we model as `none`. -/

/-- Result of the timestamp/sender parse: `(time, date, sender)` on success. -/
def parseMeta (pre : String) : Option (String × String × String) :=
  match pySplit "]" (pyStrip ['[', ']'] pre) with
  | [timestampPart, sender] =>
    match pySplit ", " timestampPart with
    | [t, d] => some (pyStripWs t, pyStripWs d, pyStrip [':', ' '] sender)
    | _ => none
  | _ => none

/-! ## HTML node model

`message_block` reads, from each `div.message-in` / `div.message-out` node:
its `class` list, the `data-id` attribute of the nearest ancestor carrying
one, and inside an optional `div.copyable-text` child the
`data-pre-plain-text` attribute and the stripped text of an optional
`span.selectable-text` child.  The structures record exactly these. -/

/-- The `div.copyable-text` sub-node of a message node, as read by the code. -/
structure CopyableText where
  /-- The `data-pre-plain-text` attribute, when present. -/
  prePlainText : Option String
  /-- `get_text(strip=True)` of the `span.selectable-text` child, when that
  span is present. -/
  selectableText : Option String
  deriving DecidableEq

/-- One `div` node classified `message-in` or `message-out`. -/
structure MsgNode where
  /-- The node's `class` attribute list (`msg.get('class', [])`). -/
  classes : List String
  /-- `data-id` of the nearest ancestor carrying that attribute
  (`msg.find_parent(attrs=...)` followed by `.get('data-id', '')`). -/
  parentDataId : Option String
  /-- The `div.copyable-text` descendant, when present. -/
  copyable : Option CopyableText
  deriving DecidableEq

/-- The structured record `message_block` builds for each node, with the same
field names as the Python dict (`type` holds `"in"` or `"out"`). -/
structure MessageRecord where
  id : String
  timestamp : String
  time : String
  sender : String
  message : String
  type : String
  deriving DecidableEq

/-- The per-node body of the `for msg in messages:` loop
(src/bot.py lines 179-217). -/
def extractMsg (msg : MsgNode) : MessageRecord :=
  let typ := if "message-in" ∈ msg.classes then "in" else "out"
  let idv := msg.parentDataId.getD ""
  match msg.copyable with
  | none =>
      { id := idv, timestamp := "", time := "", sender := "", message := "", type := typ }
  | some ct =>
      let pre := ct.prePlainText.getD ""
      let meta := if pre ≠ "" then (parseMeta pre).getD ("", "", "") else ("", "", "")
      { id := idv
        timestamp := meta.2.1
        time := meta.1
        sender := meta.2.2
        message := ct.selectableText.getD ""
        type := typ }

/-- The whole loop: every node of the block, in document order, yields one
record appended to `structured_messages`. -/
def extractBlock (nodes : List MsgNode) : List MessageRecord :=
  nodes.map extractMsg

/-- Observable outcome of one call to `WhatsBot.message_block`. -/
structure BlockCallResult where
  /-- What the call printed to stdout (`print(json.dumps(...))`), if reached. -/
  printed : Option (List MessageRecord)
  /-- The Python return value: `some s` for a string, `none` for Python `None`. -/
  ret : Option String
  deriving DecidableEq

/-- `WhatsBot.message_block` (src/bot.py lines 160-220).  The argument is the
outcome of `find_element("message_block")` followed by parsing its inner
HTML: `none` when the element was not located, otherwise the list of
message nodes in document order. -/
def message_block (found : Option (List MsgNode)) : BlockCallResult :=
  match found with
  | none => { printed := none, ret := some "" }
  | some nodes => { printed := some (extractBlock nodes), ret := none }

/-! ## Element lookup (src/bot.py lines 78-94)

`find_element` loads the mapping file (`getmap()`), looks the logical name
up in it, reads its `type`/`value` pair and queries the driver, all inside
`try: ... except: return False`.  Every fallible Python step is modelled as
an `Except String` value carried by the environment; the bare `except`
is the match that turns any error into the Python literal `False`. -/

/-- One entry of the JSON mapping file: a locate strategy and selector. -/
structure Locator where
  type : String
  value : String
  deriving DecidableEq

/-- A located Selenium `WebElement` (opaque; only its identity matters). -/
structure Element where
  eid : Nat
  deriving DecidableEq

/-- The external state `find_element` depends on: the outcome of reading and
parsing the mapping file, and the driver's answer to each locator query. -/
structure DriverEnv where
  /-- `getmap()`: the parsed mapping file, or the exception it raised. -/
  mapFile : Except String (List (String × Locator))
  /-- `self.driver.find_element(by, value)`: the element, or the
  driver-level exception (`NoSuchElementException`, connection fault, ...). -/
  query : Locator → Except String Element

/-- The body of the `try:` block of `find_element`: any step may raise. -/
def find_element_try (env : DriverEnv) (name : String) : Except String Element :=
  match env.mapFile with
  | .error e => .error e
  | .ok mp =>
    match mp.lookup name with
    | none => .error "KeyError"
    | some loc => env.query loc

/-- What `find_element` hands back to its caller: a located element, or the
Python literal `False` produced by `except: return False`. -/
inductive FindResult where
  | elem (e : Element)
  | falseVal
  deriving DecidableEq

/-- `WhatsBot.find_element` (src/bot.py lines 78-94). -/
def find_element (env : DriverEnv) (name : String) : FindResult :=
  match find_element_try env name with
  | .ok e => .elem e
  | .error _ => .falseVal

/-! ## Authentication (src/bot.py lines 96-122) -/

/-- `WhatsBot.check_auth` (src/bot.py lines 96-108): truthiness test on the
`"logged"` lookup, then on the `"home"` lookup, else
`raise Exception("Whatsapp Web not found!")` — modelled as `Except.error`. -/
def check_auth (env : DriverEnv) : Except String Bool :=
  match find_element env "logged" with
  | .elem _ => .ok true
  | .falseVal =>
    match find_element env "home" with
    | .elem _ => .ok false
    | .falseVal => .error "Whatsapp Web not found!"

/-- `opendriver` (src/bot.py lines 263-284), reduced to the one bit the
claims observe: the new driver runs headless iff both the `headless`
argument and the configured `bot.headless` flag are true
(`if headless and CF['bot']['headless']`). -/
def opendriver (cfgHeadless : Bool) (headless : Bool) : Bool :=
  headless && cfgHeadless

/-- One observable action of the `authenticate` loop. -/
inductive AuthEvent where
  /-- a call to `check_auth` and the boolean it returned -/
  | check (result : Bool)
  /-- `self.driver.quit()` -/
  | quitDriver
  /-- `self.driver = opendriver(False)`; the argument records whether the
  replacement driver is headless -/
  | reopen (headless : Bool)
  /-- `self.driver.get(CF['bot']['url'])` -/
  | navigate
  /-- `time.sleep(self.threshold['auth'])` -/
  | sleepAuth
  deriving DecidableEq

/-- `WhatsBot.authenticate` (src/bot.py lines 110-122), run against a mocked
`check_auth` whose successive boolean results are `checks` (each loop
iteration consumes the next result, since the driver it queries has been
replaced).  Returns the event trace and the method's return value `True`,
or `none` when the mock list runs out before a check succeeds. -/
def authenticate (cfgHeadless : Bool) : List Bool → Option (List AuthEvent × Bool)
  | [] => none
  | true :: _ => some ([AuthEvent.check true], true)
  | false :: rest =>
    (authenticate cfgHeadless rest).map (fun r =>
      (AuthEvent.check false :: AuthEvent.quitDriver ::
        AuthEvent.reopen (opendriver cfgHeadless false) ::
        AuthEvent.navigate :: AuthEvent.sleepAuth :: r.1, r.2))

/-! ## Contact navigation (src/bot.py lines 124-148) -/

/-- `WhatsBot.open_contact` (src/bot.py lines 124-148).  `interactions`
is the combined outcome of the statements that act on the located search
element outside any `try` (`click`, select-all, per-character `send_keys`):
their faults propagate.  `innerTry` is the outcome of the guarded block
(locate the exact-title span and click it): any fault there is caught and
becomes `return False`.  When `find_element("search")` yields the literal
`False`, the very next statement `search.click()` raises `AttributeError`,
which no handler catches. -/
def open_contact (env : DriverEnv) (interactions : Except String Unit)
    (innerTry : Except String Unit) : Except String Bool :=
  match find_element env "search" with
  | .falseVal => .error "AttributeError"
  | .elem _ =>
    match interactions with
    | .error e => .error e
    | .ok _ =>
      match innerTry with
      | .ok _ => .ok true
      | .error _ => .ok false

/-! ## Message composition (src/bot.py lines 222-246) -/

/-- One key/mouse event `send_messages` injects into the message input. -/
inductive KeyEvent where
  /-- `message_input.click()` -/
  | click
  /-- `send_keys` of a single character -/
  | char (c : Char)
  /-- `send_keys(Keys.ENTER)` — the submit key -/
  | enter
  /-- `send_keys(Keys.SHIFT + Keys.ENTER)` — the soft newline -/
  | shiftEnter
  deriving DecidableEq

/-- The signature line: `" *{}* :\n".format(CF['bot']['name'])`. -/
def message_title (botName : String) : String :=
  " *" ++ botName ++ "* :\n"

/-- `WhatsBot.send_messages` (src/bot.py lines 222-246) as the ordered trace
of events it injects: focus click, the `":robot"` warm-up followed by a
submit, then for each line of signature-plus-message every character
followed by a soft newline, then one final submit. -/
def send_messages (botName : String) (message : String) : List KeyEvent :=
  [KeyEvent.click]
    ++ ":robot".data.map KeyEvent.char
    ++ [KeyEvent.enter]
    ++ (pySplit "\n" (message_title botName ++ message)).flatMap
         (fun line => line.data.map KeyEvent.char ++ [KeyEvent.shiftEnter])
    ++ [KeyEvent.enter]

/-- The character payload of an event, used to recover the typed text from a
trace. -/
def charOf : KeyEvent → Option Char
  | KeyEvent.char c => some c
  | _ => none

/-! ## Concrete test fixtures -/

/-- A message node whose `copyable-text` div lacks the
`data-pre-plain-text` attribute but still carries message text. -/
def noMetaNode : MsgNode :=
  { classes := ["message-in"]
    parentDataId := some "node-77"
    copyable := some { prePlainText := none, selectableText := some "hi" } }

/-- A message node with nothing extractable except its classification. -/
def bareNode : MsgNode :=
  { classes := [], parentDataId := none, copyable := none }

/-- An environment where even reading the mapping file fails. -/
def emptyEnv : DriverEnv :=
  { mapFile := Except.error "FileNotFoundError"
    query := fun _ => Except.error "no driver" }

/-- The condition under which the `try:` metadata parse leaves the
`time`/`timestamp`/`sender` fields untouched: the attribute is absent or
empty (the `if pre_text:` guard fails) or the parse raises. -/
def metaUnavailable (msg : MsgNode) : Prop :=
  match msg.copyable with
  | none => True
  | some ct =>
    ct.prePlainText.getD "" = "" ∨ parseMeta (ct.prePlainText.getD "") = none

/-! ## Theorems -/

/-- C1: `message_block` does not return the extracted records.  When the
block element is located it prints the structured records and falls off the
end of the function, so its Python return value is `None`; only the
not-located branch returns a value, the empty string.  This contradicts the
docstring ("Returns: str: All messages in the message block in structured
format") and the caller in example.py, which tests the return value. -/
theorem message_block_returns_none (nodes : List MsgNode) :
    (message_block (some nodes)).ret = none ∧
    (message_block (some nodes)).printed = some (extractBlock nodes) ∧
    (message_block none).ret = some "" :=
  ⟨rfl, rfl, rfl⟩

/-- C3: the metadata parse on the documented example attribute string.  A
node carrying `data-pre-plain-text = "[18:43, 15/1/2025] Dan Radeand: "`
extracts to `time = "18:43"`, `date = "15/1/2025"` (the dict's `timestamp`
field) and `sender = "Dan Radeand"`. -/
theorem metadata_parse_example :
    extractMsg
      { classes := ["message-in"]
        parentDataId := none
        copyable := some
          { prePlainText := some "[18:43, 15/1/2025] Dan Radeand: "
            selectableText := some "hello" } } =
      { id := "", timestamp := "15/1/2025", time := "18:43"
        sender := "Dan Radeand", message := "hello", type := "in" } := by
  decide

/-- C9: extraction is length- and order-preserving: a block of `N` message
nodes yields exactly `N` records, and the record at every index is the
extraction of the node at the same index. -/
theorem extractBlock_order (nodes : List MsgNode) (i : Nat) :
    (extractBlock nodes).length = nodes.length ∧
    (extractBlock nodes)[i]? = nodes[i]?.map extractMsg := by
  constructor
  · exact List.length_map nodes extractMsg
  · exact List.getElem?_map extractMsg nodes i

/-- C5: `check_auth` returns `True` when the `"logged"` marker is found,
`False` when only the `"home"` marker is found, and raises
`Exception("Whatsapp Web not found!")` when neither is found. -/
theorem check_auth_tristate (env : DriverEnv) :
    (∀ e, find_element env "logged" = FindResult.elem e →
      check_auth env = Except.ok true) ∧
    (find_element env "logged" = FindResult.falseVal →
      ∀ e, find_element env "home" = FindResult.elem e →
        check_auth env = Except.ok false) ∧
    (find_element env "logged" = FindResult.falseVal →
      find_element env "home" = FindResult.falseVal →
      check_auth env = Except.error "Whatsapp Web not found!") := by
  refine ⟨fun e h => ?_, fun h1 e h2 => ?_, fun h1 h2 => ?_⟩ <;>
    simp [check_auth, *]

/-- Witness for C5: in an environment where no element can be found at all,
`check_auth` raises rather than returning a boolean. -/
theorem check_auth_tristate_witness :
    check_auth emptyEnv = Except.error "Whatsapp Web not found!" :=
  (check_auth_tristate emptyEnv).2.2 rfl rfl

/-- C6: `find_element` never raises.  A mapping-file load failure, a failed
registry lookup (`KeyError`), and a driver-level fault each produce the
`False` result; a successful chain returns the located element; and every
call lands in exactly one of those two outcomes. -/
theorem find_element_uniform (env : DriverEnv) (name : String) :
    (∀ err, env.mapFile = Except.error err →
      find_element env name = FindResult.falseVal) ∧
    (∀ mp, env.mapFile = Except.ok mp → mp.lookup name = none →
      find_element env name = FindResult.falseVal) ∧
    (∀ mp loc err, env.mapFile = Except.ok mp → mp.lookup name = some loc →
      env.query loc = Except.error err →
      find_element env name = FindResult.falseVal) ∧
    (∀ mp loc e, env.mapFile = Except.ok mp → mp.lookup name = some loc →
      env.query loc = Except.ok e →
      find_element env name = FindResult.elem e) ∧
    (find_element env name = FindResult.falseVal ∨
      ∃ e, find_element env name = FindResult.elem e) := by
  refine ⟨fun err h => ?_, fun mp h hl => ?_, fun mp loc err h hl hq => ?_,
    fun mp loc e h hl hq => ?_, ?_⟩
  · simp [find_element, find_element_try, h]
  · simp [find_element, find_element_try, h, hl]
  · simp [find_element, find_element_try, h, hl, hq]
  · simp [find_element, find_element_try, h, hl, hq]
  · cases hfe : find_element env name with
    | elem e => exact Or.inr ⟨e, rfl⟩
    | falseVal => exact Or.inl rfl

/-- Witness for C6: with the mapping file unreadable, the lookup of
`"search"` is reported as the `False` result, not an exception. -/
theorem find_element_uniform_witness :
    find_element emptyEnv "search" = FindResult.falseVal :=
  (find_element_uniform emptyEnv "search").1 "FileNotFoundError" rfl

/-! ### Helper lemmas about `extractMsg` -/

/-- The classification is read from the node's `class` list. -/
theorem extractMsg_type_eq (msg : MsgNode) :
    (extractMsg msg).type = if "message-in" ∈ msg.classes then "in" else "out" := by
  unfold extractMsg
  cases msg.copyable <;> simp

/-- The record id is the ancestor `data-id`, defaulting to the empty string. -/
theorem extractMsg_id_eq (msg : MsgNode) :
    (extractMsg msg).id = msg.parentDataId.getD "" := by
  unfold extractMsg
  cases msg.copyable <;> simp

/-- The message text is the stripped span text, defaulting to the empty
string, independently of the metadata fields. -/
theorem extractMsg_message_eq (msg : MsgNode) :
    (extractMsg msg).message = (msg.copyable.bind CopyableText.selectableText).getD "" := by
  unfold extractMsg
  cases msg.copyable <;> simp

/-- When the metadata attribute is absent, empty, or unparsable, the three
metadata fields stay at their initial empty-string values. -/
theorem extractMsg_meta_empty (msg : MsgNode) (h : metaUnavailable msg) :
    (extractMsg msg).time = "" ∧ (extractMsg msg).timestamp = "" ∧
      (extractMsg msg).sender = "" := by
  unfold extractMsg
  unfold metaUnavailable at h
  cases hc : msg.copyable with
  | none => simp
  | some ct =>
    rw [hc] at h
    by_cases hp : ct.prePlainText.getD "" = ""
    · simp [hp]
    · rcases h with h | h
      · exact absurd h hp
      · simp [hp, h]

/-- C4: a node whose metadata attribute is missing or unparsable still
yields a record — metadata fields empty, classification and message text
still extracted — and its presence never drops the records of the nodes
around it in the block. -/
theorem extract_missing_metadata_tolerant (msg : MsgNode)
    (before after : List MsgNode) (h : metaUnavailable msg) :
    (extractMsg msg).time = "" ∧ (extractMsg msg).timestamp = "" ∧
    (extractMsg msg).sender = "" ∧
    (extractMsg msg).type = (if "message-in" ∈ msg.classes then "in" else "out") ∧
    (extractMsg msg).message = (msg.copyable.bind CopyableText.selectableText).getD "" ∧
    extractBlock (before ++ msg :: after) =
      extractBlock before ++ extractMsg msg :: extractBlock after :=
  ⟨(extractMsg_meta_empty msg h).1, (extractMsg_meta_empty msg h).2.1,
   (extractMsg_meta_empty msg h).2.2, extractMsg_type_eq msg,
   extractMsg_message_eq msg, by simp [extractBlock]⟩

/-- Witness for C4: a node missing the `data-pre-plain-text` attribute,
flanked by two other nodes, produces its record with empty metadata. -/
theorem extract_missing_metadata_tolerant_witness :
    (extractMsg noMetaNode).time = "" ∧ (extractMsg noMetaNode).timestamp = "" ∧
    (extractMsg noMetaNode).sender = "" ∧
    (extractMsg noMetaNode).type =
      (if "message-in" ∈ noMetaNode.classes then "in" else "out") ∧
    (extractMsg noMetaNode).message =
      (noMetaNode.copyable.bind CopyableText.selectableText).getD "" ∧
    extractBlock ([bareNode] ++ noMetaNode :: [bareNode]) =
      extractBlock [bareNode] ++ extractMsg noMetaNode :: extractBlock [bareNode] :=
  extract_missing_metadata_tolerant noMetaNode [bareNode] [bareNode] (Or.inl rfl)

/-- C8: every record's `type` is `"in"` or `"out"`, and each remaining
field individually defaults to the empty string when its sub-extraction
fails. -/
theorem record_field_defaults (msg : MsgNode) :
    ((extractMsg msg).type = "in" ∨ (extractMsg msg).type = "out") ∧
    (msg.parentDataId = none → (extractMsg msg).id = "") ∧
    (msg.copyable.bind CopyableText.selectableText = none →
      (extractMsg msg).message = "") ∧
    (metaUnavailable msg →
      (extractMsg msg).time = "" ∧ (extractMsg msg).timestamp = "" ∧
        (extractMsg msg).sender = "") := by
  refine ⟨?_, fun h => ?_, fun h => ?_, fun h => extractMsg_meta_empty msg h⟩
  · rw [extractMsg_type_eq]
    by_cases hm : "message-in" ∈ msg.classes <;> simp [hm]
  · rw [extractMsg_id_eq, h]
    rfl
  · rw [extractMsg_message_eq, h]
    rfl

/-- Witness for C8: the record of a node with no extractable sub-fields has
a classification and empty strings everywhere else. -/
theorem record_field_defaults_witness :
    ((extractMsg bareNode).type = "in" ∨ (extractMsg bareNode).type = "out") ∧
    (extractMsg bareNode).id = "" ∧ (extractMsg bareNode).message = "" ∧
    (extractMsg bareNode).time = "" ∧ (extractMsg bareNode).timestamp = "" ∧
    (extractMsg bareNode).sender = "" :=
  ⟨(record_field_defaults bareNode).1,
   (record_field_defaults bareNode).2.1 rfl,
   (record_field_defaults bareNode).2.2.1 rfl,
   (record_field_defaults bareNode).2.2.2 trivial⟩

/-- C7: run against the mocked check sequence `k` failures then one
success, `authenticate` performs exactly `k` teardown/reopen/navigate/wait
cycles, every reopened driver is non-headless whatever the configuration
says, and the call returns `True` on the final successful check.  There is
no internal retry cap: this holds for every `k`. -/
theorem authenticate_reopen_cycles (cfgHeadless : Bool) (k : Nat) :
    (authenticate cfgHeadless (List.replicate k false ++ [true])).map (fun r =>
        (r.2, r.1.count (AuthEvent.reopen false), r.1.count (AuthEvent.reopen true),
         r.1.count AuthEvent.quitDriver, r.1.count AuthEvent.navigate,
         r.1.count AuthEvent.sleepAuth, r.1.count (AuthEvent.check false),
         r.1.count (AuthEvent.check true))) =
      some (true, k, 0, k, k, k, k, 1) := by
  induction k with
  | zero => simp [authenticate, List.count_cons]
  | succ n ih =>
    cases hr : authenticate cfgHeadless (List.replicate n false ++ [true]) with
    | none => rw [hr] at ih; exact absurd ih (by simp [Option.map])
    | some r =>
      rw [hr] at ih
      simp only [Option.map, Option.some.injEq, Prod.mk.injEq] at ih
      obtain ⟨h2, hrf, hrt, hq, hn, hs, hcf, hct⟩ := ih
      simp [List.replicate_succ, authenticate, hr, opendriver,
        List.count_cons, h2, hrf, hrt, hq, hn, hs, hcf, hct]

/-! ### Helper lemmas about key-event traces -/

/-- Typing a character list injects no soft newlines. -/
theorem count_shiftEnter_map_char (l : List Char) :
    (l.map KeyEvent.char).count KeyEvent.shiftEnter = 0 := by
  simp [List.count_eq_zero]

/-- Typing a character list injects no submit keys. -/
theorem count_enter_map_char (l : List Char) :
    (l.map KeyEvent.char).count KeyEvent.enter = 0 := by
  simp [List.count_eq_zero]

/-- The per-line typing loop emits exactly one soft newline per line. -/
theorem count_shiftEnter_lines (lines : List String) :
    (lines.flatMap
        (fun line => line.data.map KeyEvent.char ++ [KeyEvent.shiftEnter])).count
      KeyEvent.shiftEnter = lines.length := by
  induction lines with
  | nil => rfl
  | cons line rest ih =>
    simp [List.flatMap_cons, List.count_append, count_shiftEnter_map_char, ih]

/-- The per-line typing loop emits no submit key. -/
theorem count_enter_lines (lines : List String) :
    (lines.flatMap
        (fun line => line.data.map KeyEvent.char ++ [KeyEvent.shiftEnter])).count
      KeyEvent.enter = 0 := by
  induction lines with
  | nil => rfl
  | cons line rest ih =>
    simp [List.flatMap_cons, List.count_append, count_enter_map_char, ih]

/-- Recovering the characters from a pure typing segment gives them back. -/
theorem filterMap_charOf_map_char (l : List Char) :
    l.filterMap (charOf ∘ KeyEvent.char) = l := by
  induction l with
  | nil => rfl
  | cons c rest ih => simp [List.filterMap_cons, charOf, Function.comp, ih]

/-- The characters typed by the per-line loop are the lines' characters in
order, each line in full before the next. -/
theorem chars_of_lines (lines : List String) :
    (lines.flatMap
        (fun line => line.data.map KeyEvent.char ++ [KeyEvent.shiftEnter])).filterMap
      charOf = lines.flatMap String.data := by
  induction lines with
  | nil => rfl
  | cons line rest ih =>
    simp [List.flatMap_cons, List.filterMap_append, filterMap_charOf_map_char,
      ih, List.filterMap_cons, charOf]

/-- C2 counterexample: the claim predicts, for the combined
signature-plus-message text, one soft newline per pair of consecutive lines
(`lines - 1` of them; `2` for the three lines of bot name `"Bot"` and text
`"a\nb"`).  The code emits one after every line including the last: `3`. -/
theorem send_messages_between_lines_false :
    ¬ ((send_messages "Bot" "a\nb").count KeyEvent.shiftEnter =
        (pySplit "\n" (message_title "Bot" ++ "a\nb")).length - 1) := by
  decide

/-- C2 amended: `send_messages` prepends the signature line, splits the
combined text on newlines, and types each line character by character in
order; but it emits one soft newline after every line including the final
one (`N` lines give `N` soft newlines), and emits exactly two submit keys —
one closing the `":robot"` warm-up, one at the very end sending the
composed message. -/
theorem send_messages_composition (botName message : String) :
    (send_messages botName message).count KeyEvent.shiftEnter =
      (pySplit "\n" (message_title botName ++ message)).length ∧
    (send_messages botName message).count KeyEvent.enter = 2 ∧
    (send_messages botName message).getLast? = some KeyEvent.enter ∧
    (send_messages botName message).filterMap charOf =
      ":robot".data ++
        (pySplit "\n" (message_title botName ++ message)).flatMap String.data := by
  refine ⟨?_, ?_, ?_, ?_⟩
  · simp [send_messages, List.count_append, count_shiftEnter_map_char,
      count_shiftEnter_lines]
  · simp [send_messages, List.count_append, count_enter_map_char,
      count_enter_lines]
  · unfold send_messages
    exact List.getLast?_concat _
  · simp [send_messages, List.filterMap_append, chars_of_lines,
      filterMap_charOf_map_char, List.filterMap_cons, charOf]

/-- C10: when `find_element("search")` yields the literal `False`,
`open_contact` raises an uncaught `AttributeError` at `search.click()`
instead of returning `False`; the advertised boolean contract (`True` on
selection, `False` only when no exact-title match is found or that inner
step faults) holds only once the search input was located and the outer
interactions succeed. -/
theorem open_contact_search_precondition (env : DriverEnv)
    (interactions innerTry : Except String Unit) :
    (find_element env "search" = FindResult.falseVal →
      open_contact env interactions innerTry = Except.error "AttributeError") ∧
    (∀ e, find_element env "search" = FindResult.elem e →
      interactions = Except.ok () → innerTry = Except.ok () →
      open_contact env interactions innerTry = Except.ok true) ∧
    (∀ e err, find_element env "search" = FindResult.elem e →
      interactions = Except.ok () → innerTry = Except.error err →
      open_contact env interactions innerTry = Except.ok false) := by
  refine ⟨fun h => ?_, fun e h hi ht => ?_, fun e err h hi ht => ?_⟩ <;>
    simp [open_contact, *]

/-- Witness for C10: in an environment where the search input cannot be
located, `open_contact` raises `AttributeError` rather than returning a
boolean. -/
theorem open_contact_search_precondition_witness :
    open_contact emptyEnv (Except.ok ()) (Except.ok ()) =
      Except.error "AttributeError" :=
  (open_contact_search_precondition emptyEnv (Except.ok ()) (Except.ok ())).1 rfl

end WhatsBot
